import Mathlib

/-!
# Verification of the MED-SAFE drug-interaction checker

Shallow embedding of `src/DrugInteractionChecker.py`.  Python strings are
modelled as `List Char` (the ASCII fragment actually exercised by the
program: `str.lower`, `str.strip` and the regex classes `\d`, `\s` are
modelled on their ASCII behaviour).
-/

namespace MedSafe

/-- Whitespace, as recognised by Python `str.strip()` and the regex class
`\s` (ASCII fragment): space, tab, newline, carriage return, vertical tab,
form feed. -/
def pyIsSpace (c : Char) : Bool :=
  c = ' ' || c = '\t' || c = '\n' || c = '\r' || c = '\x0b' || c = '\x0c'

/-- Python `str.lower()` on one character (ASCII fragment): the 26 basic
latin capitals map to their lowercase form, everything else is unchanged. -/
def pyLowerChar (c : Char) : Char :=
  if c = 'A' then 'a' else if c = 'B' then 'b' else if c = 'C' then 'c'
  else if c = 'D' then 'd' else if c = 'E' then 'e' else if c = 'F' then 'f'
  else if c = 'G' then 'g' else if c = 'H' then 'h' else if c = 'I' then 'i'
  else if c = 'J' then 'j' else if c = 'K' then 'k' else if c = 'L' then 'l'
  else if c = 'M' then 'm' else if c = 'N' then 'n' else if c = 'O' then 'o'
  else if c = 'P' then 'p' else if c = 'Q' then 'q' else if c = 'R' then 'r'
  else if c = 'S' then 's' else if c = 'T' then 't' else if c = 'U' then 'u'
  else if c = 'V' then 'v' else if c = 'W' then 'w' else if c = 'X' then 'x'
  else if c = 'Y' then 'y' else if c = 'Z' then 'z' else c

/-- Python `str.lower()` on a whole string. -/
def pyLower (s : List Char) : List Char := s.map pyLowerChar

/-- Python `str.strip()`: drop leading and trailing whitespace. -/
def pyStrip (s : List Char) : List Char :=
  ((s.dropWhile pyIsSpace).reverse.dropWhile pyIsSpace).reverse

/-- The name normalisation used throughout the checker:
`name.lower().strip()`. -/
def pyNormalize (s : List Char) : List Char := pyStrip (pyLower s)

/-- One character of the regex class `[\d.,\s]` from
`_validate_drug_input`. -/
def pyNumericChar (c : Char) : Bool :=
  c.isDigit || c = '.' || c = ',' || pyIsSpace c

/-- The empty-name rejection message of `_validate_drug_input`. -/
def emptyMsg : List Char := "Drug name cannot be empty".data

/-- The purely-numeric rejection message of `_validate_drug_input`. -/
def numericMsg : List Char := "Invalid input: Drug name cannot be purely numeric".data

/-- `DrugInteractionChecker._validate_drug_input`.  Returns `none` when the
input is valid and `some message` when it is rejected.  The Python original
returns the pair `(False, message)` / `(True, None)`; the `Option` carries
the same information.  The regex test `re.match(r'^[\d.,\s]+$', stripped)`
succeeds exactly when the stripped string is nonempty and every character is
in the class; nonemptiness is already known in that branch. -/
def validate_drug_input (s : List Char) : Option (List Char) :=
  if pyStrip s = [] then some emptyMsg
  else if (pyStrip s).all pyNumericChar then some numericMsg
  else none

/-! ## Column-role inference (`_load_data`) -/

/-- Python substring test `needle in hay`. -/
def listContainsSub (needle : List Char) : List Char → Bool
  | [] => needle.isEmpty
  | c :: rest => needle.isPrefixOf (c :: rest) || listContainsSub needle rest

/-- `'drug' in col.lower() and 'a' in col.lower()`. -/
def isDrugAHeader (h : List Char) : Bool :=
  listContainsSub "drug".data (pyLower h) && listContainsSub "a".data (pyLower h)

/-- `'drug' in col.lower() and 'b' in col.lower()`. -/
def isDrugBHeader (h : List Char) : Bool :=
  listContainsSub "drug".data (pyLower h) && listContainsSub "b".data (pyLower h)

/-- `'level' in col.lower() or 'severity' in col.lower()`. -/
def isLevelHeader (h : List Char) : Bool :=
  listContainsSub "level".data (pyLower h) || listContainsSub "severity".data (pyLower h)

/-- Index of the first header satisfying `p`: the list comprehension
`[col for col in self.df.columns if p(col)]` followed by `candidates[0]`,
viewed positionally. -/
def findHeaderIdx (p : List Char → Bool) : List (List Char) → Option Nat
  | [] => none
  | h :: rest => if p h then some 0 else (findHeaderIdx p rest).map (· + 1)

/-- `self.drug1_col`: first drug-A candidate, else `self.df.columns[1]`. -/
def drugAColIdx (headers : List (List Char)) : Nat :=
  (findHeaderIdx isDrugAHeader headers).getD 1

/-- `self.drug2_col`: first drug-B candidate, else `self.df.columns[3]`. -/
def drugBColIdx (headers : List (List Char)) : Nat :=
  (findHeaderIdx isDrugBHeader headers).getD 3

/-- `self.level_col`: first level candidate, else `self.df.columns[4]`. -/
def levelColIdx (headers : List (List Char)) : Nat :=
  (findHeaderIdx isLevelHeader headers).getD 4

/-! ## Data model and loading -/

/-- One dataset row projected onto the three resolved columns, before
load-time normalisation. -/
structure RawRecord where
  drugA : List Char
  drugB : List Char
  level : List Char
deriving DecidableEq, Repr

/-- One loaded row: the record type returned to callers. -/
structure InteractionRecord where
  drugA : List Char
  drugB : List Char
  level : List Char
deriving DecidableEq, Repr

/-- Load-time normalisation of one row:
`self.df[col] = self.df[col].str.lower().str.strip()` applied to the two
drug columns, the level column untouched. -/
def loadRecord (r : RawRecord) : InteractionRecord :=
  { drugA := pyStrip (pyLower r.drugA)
    drugB := pyStrip (pyLower r.drugB)
    level := r.level }

/-- The loaded table, in dataset row order. -/
def loadTable (rs : List RawRecord) : List InteractionRecord := rs.map loadRecord

/-! ## Queries -/

/-- The `dict` returned by both query methods:
`{'status': ..., 'message': ..., 'data': ...}`. -/
structure PyResult where
  status : String
  message : List Char
  data : Option (List InteractionRecord)
deriving DecidableEq, Repr

/-- The row mask of `check_interaction`:
`((df[c1] == d1) & (df[c2] == d2)) | ((df[c1] == d2) & (df[c2] == d1))`. -/
def pairMatch (d1 d2 : List Char) (r : InteractionRecord) : Bool :=
  (r.drugA == d1 && r.drugB == d2) || (r.drugA == d2 && r.drugB == d1)

/-- `DrugInteractionChecker.check_interaction`. -/
def check_interaction (df : List InteractionRecord) (drug1 drug2 : List Char) :
    PyResult :=
  match validate_drug_input drug1 with
  | some msg =>
    { status := "invalid_input", message := "Drug 1 - ".data ++ msg, data := none }
  | none =>
    match validate_drug_input drug2 with
    | some msg =>
      { status := "invalid_input", message := "Drug 2 - ".data ++ msg, data := none }
    | none =>
      let d1 := pyNormalize drug1
      let d2 := pyNormalize drug2
      if d1 = d2 then
        { status := "error"
          message := "Cannot check interaction of a drug with itself".data
          data := none }
      else
        let m := df.filter (pairMatch d1 d2)
        if m ≠ [] then
          { status := "found"
            message := "Interaction found between ".data ++ drug1 ++ " and ".data ++ drug2
            data := some m }
        else
          { status := "not_found"
            message := "No significant interaction found".data
            data := none }

/-- The row mask of `get_all_interactions_for_drug`:
`(df[c1] == drug) | (df[c2] == drug)`. -/
def drugMatch (d : List Char) (r : InteractionRecord) : Bool :=
  r.drugA == d || r.drugB == d

/-- `DrugInteractionChecker.get_all_interactions_for_drug`. -/
def get_all_interactions_for_drug (df : List InteractionRecord)
    (drug_name : List Char) : PyResult :=
  match validate_drug_input drug_name with
  | some msg => { status := "invalid_input", message := msg, data := none }
  | none =>
    let drug := pyNormalize drug_name
    let m := df.filter (drugMatch drug)
    if m ≠ [] then
      { status := "found"
        message := "Found ".data ++ (toString m.length).data ++
          " interaction(s) for ".data ++ drug_name
        data := some m }
    else
      { status := "not_found"
        message := "No interactions found for ".data ++ drug_name
        data := none }

/-! ## Query methods as state transformers

The Python methods run on the object state `(self.df, self.drug1_col,
self.drug2_col, self.level_col)`; neither method body contains an
assignment to any of these fields, so the embedding threads the state
through unchanged. -/

/-- The mutable state of a `DrugInteractionChecker` object after
construction. -/
structure CheckerState where
  df : List InteractionRecord
  drug1_col : Nat
  drug2_col : Nat
  level_col : Nat
deriving DecidableEq, Repr

/-- `check_interaction` as a state transformer on the object. -/
def check_interaction_st (st : CheckerState) (drug1 drug2 : List Char) :
    CheckerState × PyResult :=
  (st, check_interaction st.df drug1 drug2)

/-- `get_all_interactions_for_drug` as a state transformer on the object. -/
def get_all_interactions_for_drug_st (st : CheckerState) (drug_name : List Char) :
    CheckerState × PyResult :=
  (st, get_all_interactions_for_drug st.df drug_name)

/-- The sample table of §8 of the design document, as loaded. -/
def sampleTable : List InteractionRecord :=
  loadTable [{ drugA := "Aspirin".data, drugB := "Warfarin".data, level := "Major".data }]

/-- A raw dataset row with unnormalised drug names. -/
def rawAW : RawRecord :=
  { drugA := " Aspirin ".data, drugB := "WARFARIN".data, level := "Major".data }

/-- The sample row of §8 after load-time normalisation. -/
def recAW : InteractionRecord :=
  { drugA := "aspirin".data, drugB := "warfarin".data, level := "Major".data }

/-- The header list from the column-inference example of §8. -/
def exampleHeaders : List (List Char) :=
  ["id".data, "DrugA_name".data, "other".data, "DrugB_name".data,
    "Severity_Level".data]

/-- A header list in which no header matches any heuristic substring. -/
def plainHeaders : List (List Char) :=
  ["c1".data, "c2".data, "c3".data, "c4".data, "c5".data]


example : validate_drug_input "".data = some ("Drug name cannot be empty".data) := by decide
example : validate_drug_input "   ".data = some ("Drug name cannot be empty".data) := by decide
example : validate_drug_input "123".data =
    some ("Invalid input: Drug name cannot be purely numeric".data) := by decide
example : validate_drug_input "1, 2.5".data =
    some ("Invalid input: Drug name cannot be purely numeric".data) := by decide
example : validate_drug_input "Aspirin".data = none := by decide
example : validate_drug_input "5-FU".data = none := by decide
example : validate_drug_input "Drug2".data = none := by decide
example : pyNormalize " ASPirin  ".data = "aspirin".data := by decide

example : sampleTable =
    [{ drugA := "aspirin".data, drugB := "warfarin".data, level := "Major".data }] := by decide

example : (check_interaction sampleTable "warfarin".data "ASPIRIN ".data).status = "found" := by decide
example : (check_interaction sampleTable "Aspirin".data "Ibuprofen".data).status = "not_found" := by decide
example : (check_interaction sampleTable "Aspirin".data " aspirin".data).status = "error" := by decide
example :
    drugAColIdx ["id".data, "DrugA_name".data, "other".data, "DrugB_name".data,
      "Severity_Level".data] = 1 := by decide
example :
    drugBColIdx ["id".data, "DrugA_name".data, "other".data, "DrugB_name".data,
      "Severity_Level".data] = 3 := by decide
example :
    levelColIdx ["id".data, "DrugA_name".data, "other".data, "DrugB_name".data,
      "Severity_Level".data] = 4 := by decide

/-! ## Normalisation lemmas -/

lemma pyLowerChar_of_not_upper (c : Char)
    (h : c ∉ ['A', 'B', 'C', 'D', 'E', 'F', 'G', 'H', 'I', 'J', 'K', 'L', 'M',
      'N', 'O', 'P', 'Q', 'R', 'S', 'T', 'U', 'V', 'W', 'X', 'Y', 'Z']) :
    pyLowerChar c = c := by
  simp only [List.mem_cons, List.not_mem_nil, or_false, not_or] at h
  obtain ⟨hA, hB, hC, hD, hE, hF, hG, hH, hI, hJ, hK, hL, hM, hN, hO, hP, hQ,
    hR, hS, hT, hU, hV, hW, hX, hY, hZ⟩ := h
  unfold pyLowerChar
  rw [if_neg hA, if_neg hB, if_neg hC, if_neg hD, if_neg hE, if_neg hF,
    if_neg hG, if_neg hH, if_neg hI, if_neg hJ, if_neg hK, if_neg hL,
    if_neg hM, if_neg hN, if_neg hO, if_neg hP, if_neg hQ, if_neg hR,
    if_neg hS, if_neg hT, if_neg hU, if_neg hV, if_neg hW, if_neg hX,
    if_neg hY, if_neg hZ]

lemma pyLowerChar_eq_self_or_upper (c : Char) :
    pyLowerChar c = c ∨
      c ∈ ['A', 'B', 'C', 'D', 'E', 'F', 'G', 'H', 'I', 'J', 'K', 'L', 'M',
        'N', 'O', 'P', 'Q', 'R', 'S', 'T', 'U', 'V', 'W', 'X', 'Y', 'Z'] := by
  by_cases h : c ∈ ['A', 'B', 'C', 'D', 'E', 'F', 'G', 'H', 'I', 'J', 'K', 'L', 'M',
      'N', 'O', 'P', 'Q', 'R', 'S', 'T', 'U', 'V', 'W', 'X', 'Y', 'Z']
  · right
    exact h
  · left
    exact pyLowerChar_of_not_upper c h

lemma pyLowerChar_idem (c : Char) : pyLowerChar (pyLowerChar c) = pyLowerChar c := by
  rcases pyLowerChar_eq_self_or_upper c with h | h
  · rw [h]; exact h
  · simp only [List.mem_cons, List.not_mem_nil, or_false] at h
    rcases h with rfl | rfl | rfl | rfl | rfl | rfl | rfl | rfl | rfl | rfl | rfl | rfl |
      rfl | rfl | rfl | rfl | rfl | rfl | rfl | rfl | rfl | rfl | rfl | rfl | rfl | rfl <;>
      decide

lemma pyIsSpace_pyLowerChar (c : Char) : pyIsSpace (pyLowerChar c) = pyIsSpace c := by
  rcases pyLowerChar_eq_self_or_upper c with h | h
  · rw [h]
  · simp only [List.mem_cons, List.not_mem_nil, or_false] at h
    rcases h with rfl | rfl | rfl | rfl | rfl | rfl | rfl | rfl | rfl | rfl | rfl | rfl |
      rfl | rfl | rfl | rfl | rfl | rfl | rfl | rfl | rfl | rfl | rfl | rfl | rfl | rfl <;>
      decide

lemma pyLower_idem (s : List Char) : pyLower (pyLower s) = pyLower s := by
  induction s with
  | nil => rfl
  | cons c t ih =>
    simp only [pyLower, List.map_cons] at ih ⊢
    rw [pyLowerChar_idem, ih]

lemma dropWhile_dropWhile (p : Char → Bool) (l : List Char) :
    List.dropWhile p (List.dropWhile p l) = List.dropWhile p l := by
  cases h : List.dropWhile p l with
  | nil => simp
  | cons c t =>
    have hc := List.head?_dropWhile_not p l
    rw [h] at hc
    simp only [List.head?_cons] at hc
    rw [List.dropWhile_cons_of_neg (by simp [hc])]

lemma head_pyStrip_not_space (s : List Char) (c : Char) (t : List Char)
    (h : pyStrip s = c :: t) : pyIsSpace c = false := by
  have hsfx : List.dropWhile pyIsSpace ((List.dropWhile pyIsSpace s).reverse) <:+
      (List.dropWhile pyIsSpace s).reverse := List.dropWhile_suffix pyIsSpace
  have hpre := List.reverse_prefix.mpr hsfx
  rw [List.reverse_reverse] at hpre
  rw [show ((List.dropWhile pyIsSpace ((List.dropWhile pyIsSpace s).reverse)).reverse)
      = pyStrip s from rfl, h] at hpre
  obtain ⟨r, hr⟩ := hpre
  have hc := List.head?_dropWhile_not pyIsSpace s
  rw [← hr] at hc
  simpa using hc

lemma dropWhile_pyStrip (s : List Char) :
    List.dropWhile pyIsSpace (pyStrip s) = pyStrip s := by
  cases h : pyStrip s with
  | nil => simp
  | cons c t =>
    have hc := head_pyStrip_not_space s c t h
    rw [List.dropWhile_cons_of_neg (by simp [hc])]

lemma pyStrip_idem (s : List Char) : pyStrip (pyStrip s) = pyStrip s := by
  have h1 : (pyStrip s).reverse =
      List.dropWhile pyIsSpace ((List.dropWhile pyIsSpace s).reverse) := by
    rw [pyStrip, List.reverse_reverse]
  calc pyStrip (pyStrip s)
      = ((List.dropWhile pyIsSpace (pyStrip s)).reverse.dropWhile pyIsSpace).reverse := rfl
    _ = ((pyStrip s).reverse.dropWhile pyIsSpace).reverse := by rw [dropWhile_pyStrip]
    _ = ((List.dropWhile pyIsSpace
          ((List.dropWhile pyIsSpace s).reverse)).dropWhile pyIsSpace).reverse := by
        rw [h1]
    _ = (List.dropWhile pyIsSpace ((List.dropWhile pyIsSpace s).reverse)).reverse := by
        rw [dropWhile_dropWhile]
    _ = (pyStrip s).reverse.reverse := by rw [h1]
    _ = pyStrip s := List.reverse_reverse _

lemma map_dropWhile_space (l : List Char) :
    (List.dropWhile pyIsSpace l).map pyLowerChar =
      List.dropWhile pyIsSpace (l.map pyLowerChar) := by
  have hpf : (pyIsSpace ∘ pyLowerChar) = pyIsSpace := by
    funext c
    simp [Function.comp, pyIsSpace_pyLowerChar]
  rw [List.dropWhile_map, hpf]

lemma pyLower_pyStrip (s : List Char) : pyLower (pyStrip s) = pyStrip (pyLower s) := by
  unfold pyLower pyStrip
  simp only [List.map_reverse, map_dropWhile_space]

lemma pyLower_pyNormalize (s : List Char) : pyLower (pyNormalize s) = pyNormalize s := by
  unfold pyNormalize
  rw [pyLower_pyStrip, pyLower_idem]

lemma pyStrip_pyNormalize (s : List Char) : pyStrip (pyNormalize s) = pyNormalize s := by
  unfold pyNormalize
  exact pyStrip_idem (pyLower s)

lemma pyNormalize_idem (s : List Char) : pyNormalize (pyNormalize s) = pyNormalize s := by
  unfold pyNormalize
  rw [pyLower_pyStrip, pyLower_idem, pyStrip_idem]

/-! ## Column-inference lemmas -/

lemma findHeaderIdx_eq_none_iff (p : List Char → Bool) (l : List (List Char)) :
    findHeaderIdx p l = none ↔ ∀ h ∈ l, p h = false := by
  induction l with
  | nil => simp [findHeaderIdx]
  | cons x xs ih =>
    by_cases hx : p x
    · simp [findHeaderIdx, hx]
    · simp [findHeaderIdx, hx, ih]

lemma findHeaderIdx_append_first (p : List Char → Bool) (pre : List (List Char))
    (h : List Char) (post : List (List Char))
    (hpre : ∀ x ∈ pre, p x = false) (hh : p h = true) :
    findHeaderIdx p (pre ++ h :: post) = some pre.length := by
  induction pre with
  | nil => simp [findHeaderIdx, hh]
  | cons x xs ih =>
    have hx : p x = false := hpre x (by simp)
    have hxs : ∀ y ∈ xs, p y = false := fun y hy => hpre y (by simp [hy])
    simp [findHeaderIdx, hx, ih hxs]

/-! ## Query lemmas -/

lemma pairMatch_comm (d1 d2 : List Char) (r : InteractionRecord) :
    pairMatch d1 d2 r = pairMatch d2 d1 r := by
  unfold pairMatch
  rw [Bool.or_comm]

/-! ## Claims -/

/-- C2: `validateDrugName` rejects a name with reason "empty" exactly when the
trimmed name is empty, rejects it with reason "purely numeric" exactly when
the trimmed name is nonempty and consists only of digits, dots, commas and
whitespace, and accepts it otherwise; in particular `""`, `"   "`, `"123"`,
`"1, 2.5"` are invalid and `"Aspirin"`, `"5-FU"`, `"Drug2"` are valid. -/
theorem C2_validate_drug_input_spec :
    (∀ s : List Char,
      (validate_drug_input s = some emptyMsg ↔ pyStrip s = []) ∧
      (validate_drug_input s = some numericMsg ↔
        pyStrip s ≠ [] ∧ ∀ c ∈ pyStrip s, pyNumericChar c = true) ∧
      (validate_drug_input s = none ↔
        pyStrip s ≠ [] ∧ ¬ ∀ c ∈ pyStrip s, pyNumericChar c = true)) ∧
    validate_drug_input "".data = some emptyMsg ∧
    validate_drug_input "   ".data = some emptyMsg ∧
    validate_drug_input "123".data = some numericMsg ∧
    validate_drug_input "1, 2.5".data = some numericMsg ∧
    validate_drug_input "Aspirin".data = none ∧
    validate_drug_input "5-FU".data = none ∧
    validate_drug_input "Drug2".data = none := by
  have hmsg : emptyMsg ≠ numericMsg := by decide
  refine ⟨fun s => ?_, by decide, by decide, by decide, by decide, by decide,
    by decide, by decide⟩
  unfold validate_drug_input
  by_cases h1 : pyStrip s = []
  · simp [h1, hmsg]
  · by_cases h2 : (pyStrip s).all pyNumericChar
    · rw [List.all_eq_true] at h2
      simp [h1, h2, hmsg, Ne.symm hmsg, List.all_eq_true]
    · rw [List.all_eq_true] at h2
      simp [h1, h2, hmsg, Ne.symm hmsg, List.all_eq_true]

/-- C7: after loading, every record's drugA and drugB fields are lowercase
and trimmed (the level field is kept verbatim), and the normalisation
`lower` + `strip` is idempotent. -/
theorem C7_load_normalized :
    (∀ rs : List RawRecord, ∀ r ∈ loadTable rs,
      pyLower r.drugA = r.drugA ∧ pyStrip r.drugA = r.drugA ∧
      pyLower r.drugB = r.drugB ∧ pyStrip r.drugB = r.drugB) ∧
    (∀ rs : List RawRecord,
      (loadTable rs).map InteractionRecord.level = rs.map RawRecord.level) ∧
    (∀ s : List Char, pyNormalize (pyNormalize s) = pyNormalize s) := by
  refine ⟨?_, ?_, pyNormalize_idem⟩
  · intro rs r hr
    obtain ⟨r0, _, rfl⟩ := List.mem_map.mp hr
    exact ⟨pyLower_pyNormalize r0.drugA, pyStrip_pyNormalize r0.drugA,
      pyLower_pyNormalize r0.drugB, pyStrip_pyNormalize r0.drugB⟩
  · intro rs
    unfold loadTable
    rw [List.map_map]
    rfl

/-- Witness for C7 at a concrete raw row with unnormalised drug names. -/
theorem C7_witness :
    pyLower (loadRecord rawAW).drugA = (loadRecord rawAW).drugA ∧
    pyStrip (loadRecord rawAW).drugA = (loadRecord rawAW).drugA ∧
    pyLower (loadRecord rawAW).drugB = (loadRecord rawAW).drugB ∧
    pyStrip (loadRecord rawAW).drugB = (loadRecord rawAW).drugB :=
  C7_load_normalized.1 [rawAW] (loadRecord rawAW) (by simp [loadTable])

/-- C9: neither query mutates the object state: the table and the three
resolved column roles are unchanged by any query. -/
theorem C9_queries_leave_state_unchanged (st : CheckerState) (a b c : List Char) :
    (check_interaction_st st a b).1 = st ∧
    (get_all_interactions_for_drug_st st c).1 = st ∧
    (check_interaction_st st a b).1.df = st.df ∧
    (check_interaction_st st a b).1.drug1_col = st.drug1_col ∧
    (check_interaction_st st a b).1.drug2_col = st.drug2_col ∧
    (check_interaction_st st a b).1.level_col = st.level_col :=
  ⟨rfl, rfl, rfl, rfl, rfl, rfl⟩

/-- C1: for valid inputs with distinct normalised names, `check_interaction`
returns the `found` result carrying exactly the records that match the pair
in either orientation, in original table order, when at least one record
matches, and the `not_found` result when none does. -/
theorem C1_check_interaction_pair_lookup (t : List InteractionRecord)
    (d1 d2 : List Char)
    (h1 : validate_drug_input d1 = none) (h2 : validate_drug_input d2 = none)
    (hne : pyNormalize d1 ≠ pyNormalize d2) :
    (t.filter (pairMatch (pyNormalize d1) (pyNormalize d2)) ≠ [] ↔
      ∃ r ∈ t, pairMatch (pyNormalize d1) (pyNormalize d2) r = true) ∧
    (t.filter (pairMatch (pyNormalize d1) (pyNormalize d2)) ≠ [] →
      check_interaction t d1 d2 =
        { status := "found"
          message := "Interaction found between ".data ++ d1 ++ " and ".data ++ d2
          data := some (t.filter (pairMatch (pyNormalize d1) (pyNormalize d2))) }) ∧
    (t.filter (pairMatch (pyNormalize d1) (pyNormalize d2)) = [] →
      check_interaction t d1 d2 =
        { status := "not_found"
          message := "No significant interaction found".data
          data := none }) := by
  refine ⟨?_, ?_, ?_⟩
  · rw [Ne, List.filter_eq_nil_iff]
    push_neg
    simp
  · intro hm
    simp only [check_interaction, h1, h2]
    rw [if_neg hne, if_pos hm]
  · intro hm
    simp only [check_interaction, h1, h2]
    rw [if_neg hne, if_neg (by simp [hm])]

/-- Witness for C1: the §8 example `checkInteraction("warfarin", "ASPIRIN ")`
finds the Aspirin–Warfarin row. -/
theorem C1_witness :
    check_interaction sampleTable "warfarin".data "ASPIRIN ".data =
      { status := "found"
        message := "Interaction found between warfarin and ASPIRIN ".data
        data := some [recAW] } :=
  ((C1_check_interaction_pair_lookup sampleTable "warfarin".data "ASPIRIN ".data
    (by decide) (by decide) (by decide)).2.1 (by decide)).trans (by decide)

/-- C3: for valid inputs, `check_interaction` returns the same-drug error
exactly when the two names are equal after normalisation. -/
theorem C3_check_interaction_same_drug (t : List InteractionRecord)
    (d1 d2 : List Char)
    (h1 : validate_drug_input d1 = none) (h2 : validate_drug_input d2 = none) :
    (check_interaction t d1 d2 =
      { status := "error"
        message := "Cannot check interaction of a drug with itself".data
        data := none } ↔ pyNormalize d1 = pyNormalize d2) := by
  simp only [check_interaction, h1, h2]
  by_cases he : pyNormalize d1 = pyNormalize d2
  · rw [if_pos he]
    simp [he]
  · rw [if_neg he]
    constructor
    · intro hcontra
      exfalso
      by_cases hm : t.filter (pairMatch (pyNormalize d1) (pyNormalize d2)) ≠ []
      · rw [if_pos hm] at hcontra
        exact absurd
          (show ("found" : String) = "error" from congrArg PyResult.status hcontra)
          (by decide)
      · rw [if_neg hm] at hcontra
        exact absurd
          (show ("not_found" : String) = "error" from congrArg PyResult.status hcontra)
          (by decide)
    · intro hcontra
      exact absurd hcontra he

/-- Witness for C3: `checkInteraction x x` at `x = "Aspirin"` yields the
same-drug error. -/
theorem C3_witness :
    validate_drug_input "Aspirin".data = none ∧
    (check_interaction sampleTable "Aspirin".data "Aspirin".data =
      { status := "error"
        message := "Cannot check interaction of a drug with itself".data
        data := none } ↔
      pyNormalize "Aspirin".data = pyNormalize "Aspirin".data) :=
  ⟨by decide, C3_check_interaction_same_drug sampleTable "Aspirin".data
    "Aspirin".data (by decide) (by decide)⟩

/-- C4: `get_all_interactions_for_drug` returns the bare validation reason on
invalid input, and otherwise the `found` result carrying exactly the records
in which the normalised name appears in either drug column, in original
table order, or the `not_found` result when there are none. -/
theorem C4_get_all_interactions_spec (t : List InteractionRecord) (s : List Char) :
    (∀ msg, validate_drug_input s = some msg →
      get_all_interactions_for_drug t s =
        { status := "invalid_input", message := msg, data := none }) ∧
    (validate_drug_input s = none →
      ((t.filter (drugMatch (pyNormalize s)) ≠ [] ↔
         ∃ r ∈ t, drugMatch (pyNormalize s) r = true) ∧
       (t.filter (drugMatch (pyNormalize s)) ≠ [] →
         (get_all_interactions_for_drug t s).status = "found" ∧
         (get_all_interactions_for_drug t s).data =
           some (t.filter (drugMatch (pyNormalize s)))) ∧
       (t.filter (drugMatch (pyNormalize s)) = [] →
         get_all_interactions_for_drug t s =
           { status := "not_found"
             message := "No interactions found for ".data ++ s
             data := none }))) := by
  constructor
  · intro msg hv
    simp [get_all_interactions_for_drug, hv]
  · intro hv
    refine ⟨?_, ?_, ?_⟩
    · rw [Ne, List.filter_eq_nil_iff]
      push_neg
      simp
    · intro hm
      simp only [get_all_interactions_for_drug, hv]
      rw [if_pos hm]
      exact ⟨rfl, rfl⟩
    · intro hm
      simp only [get_all_interactions_for_drug, hv]
      rw [if_neg (by simp [hm])]

/-- Witness for C4: `getAllInteractionsForDrug("aspirin")` on the sample
table finds the Aspirin–Warfarin row. -/
theorem C4_witness :
    (get_all_interactions_for_drug sampleTable "aspirin".data).status = "found" ∧
    (get_all_interactions_for_drug sampleTable "aspirin".data).data =
      some [recAW] := by
  have h := ((C4_get_all_interactions_spec sampleTable "aspirin".data).2
    (by decide)).2.1 (by decide)
  exact ⟨h.1, h.2.trans (by decide)⟩

/-- C5: column-role inference picks the first header matching each heuristic
and falls back to the fixed indices 1, 3 and 4 when no header matches; on
the §8 example headers it resolves to 1, 3, 4, and on headers with no
matching substrings it also resolves to 1, 3, 4. -/
theorem C5_column_inference :
    (∀ headers : List (List Char),
      ((∀ h ∈ headers, isDrugAHeader h = false) → drugAColIdx headers = 1) ∧
      ((∀ h ∈ headers, isDrugBHeader h = false) → drugBColIdx headers = 3) ∧
      ((∀ h ∈ headers, isLevelHeader h = false) → levelColIdx headers = 4) ∧
      (∀ pre h post, headers = pre ++ h :: post →
        (∀ x ∈ pre, isDrugAHeader x = false) → isDrugAHeader h = true →
        drugAColIdx headers = pre.length) ∧
      (∀ pre h post, headers = pre ++ h :: post →
        (∀ x ∈ pre, isDrugBHeader x = false) → isDrugBHeader h = true →
        drugBColIdx headers = pre.length) ∧
      (∀ pre h post, headers = pre ++ h :: post →
        (∀ x ∈ pre, isLevelHeader x = false) → isLevelHeader h = true →
        levelColIdx headers = pre.length)) ∧
    drugAColIdx exampleHeaders = 1 ∧ drugBColIdx exampleHeaders = 3 ∧
    levelColIdx exampleHeaders = 4 ∧
    drugAColIdx plainHeaders = 1 ∧ drugBColIdx plainHeaders = 3 ∧
    levelColIdx plainHeaders = 4 := by
  refine ⟨fun headers => ⟨?_, ?_, ?_, ?_, ?_, ?_⟩, by decide, by decide,
    by decide, by decide, by decide, by decide⟩
  · intro hnone
    unfold drugAColIdx
    rw [(findHeaderIdx_eq_none_iff _ _).mpr hnone]
    rfl
  · intro hnone
    unfold drugBColIdx
    rw [(findHeaderIdx_eq_none_iff _ _).mpr hnone]
    rfl
  · intro hnone
    unfold levelColIdx
    rw [(findHeaderIdx_eq_none_iff _ _).mpr hnone]
    rfl
  · intro pre h post heq hpre hh
    subst heq
    unfold drugAColIdx
    rw [findHeaderIdx_append_first _ _ _ _ hpre hh]
    rfl
  · intro pre h post heq hpre hh
    subst heq
    unfold drugBColIdx
    rw [findHeaderIdx_append_first _ _ _ _ hpre hh]
    rfl
  · intro pre h post heq hpre hh
    subst heq
    unfold levelColIdx
    rw [findHeaderIdx_append_first _ _ _ _ hpre hh]
    rfl

/-- Witness for C5: the positional fallback on headers with no matching
substrings. -/
theorem C5_witness : drugAColIdx plainHeaders = 1 :=
  (C5_column_inference.1 plainHeaders).1 (by decide)

/-- C6: `check_interaction` is symmetric in its two arguments up to the
status tag and the matched records. -/
theorem C6_check_interaction_symm (t : List InteractionRecord) (a b : List Char) :
    (check_interaction t a b).status = (check_interaction t b a).status ∧
    (check_interaction t a b).data = (check_interaction t b a).data := by
  cases hva : validate_drug_input a with
  | some m1 =>
    cases hvb : validate_drug_input b with
    | some m2 => simp [check_interaction, hva, hvb]
    | none => simp [check_interaction, hva, hvb]
  | none =>
    cases hvb : validate_drug_input b with
    | some m2 => simp [check_interaction, hva, hvb]
    | none =>
      by_cases he : pyNormalize a = pyNormalize b
      · simp [check_interaction, hva, hvb, he]
      · have hne2 : ¬ pyNormalize b = pyNormalize a := fun hx => he hx.symm
        have hf : t.filter (pairMatch (pyNormalize a) (pyNormalize b)) =
            t.filter (pairMatch (pyNormalize b) (pyNormalize a)) :=
          List.filter_congr fun x _ => pairMatch_comm _ _ x
        simp only [check_interaction, hva, hvb]
        rw [if_neg he, if_neg hne2, hf]
        by_cases hm : t.filter (pairMatch (pyNormalize b) (pyNormalize a)) ≠ []
        · rw [if_pos hm, if_pos hm]
          exact ⟨rfl, rfl⟩
        · rw [if_neg hm, if_neg hm]
          exact ⟨rfl, rfl⟩

/-- C8: both query functions are total and always return one of the tagged
statuses: `invalid_input`, `error`, `found`, `not_found`. -/
theorem C8_queries_total_status (t : List InteractionRecord) (a b c : List Char) :
    ((check_interaction t a b).status = "invalid_input" ∨
     (check_interaction t a b).status = "error" ∨
     (check_interaction t a b).status = "found" ∨
     (check_interaction t a b).status = "not_found") ∧
    ((get_all_interactions_for_drug t c).status = "invalid_input" ∨
     (get_all_interactions_for_drug t c).status = "found" ∨
     (get_all_interactions_for_drug t c).status = "not_found") := by
  constructor
  · cases hva : validate_drug_input a with
    | some m => simp [check_interaction, hva]
    | none =>
      cases hvb : validate_drug_input b with
      | some m => simp [check_interaction, hva, hvb]
      | none =>
        by_cases he : pyNormalize a = pyNormalize b
        · simp [check_interaction, hva, hvb, he]
        · by_cases hm : t.filter (pairMatch (pyNormalize a) (pyNormalize b)) ≠ []
          · simp [check_interaction, hva, hvb, he, hm]
          · simp [check_interaction, hva, hvb, he, hm]
  · cases hv : validate_drug_input c with
    | some m => simp [get_all_interactions_for_drug, hv]
    | none =>
      by_cases hm : t.filter (drugMatch (pyNormalize c)) ≠ []
      · simp [get_all_interactions_for_drug, hv, hm]
      · simp [get_all_interactions_for_drug, hv, hm]

/-- C10: the drug-A header test accepts any header containing "drug" and the
letter "a" anywhere, so a header naming the B column ("drug_b_name") is
selected as the drugA column, and a single header ("drug_a_b") can resolve
drugA and drugB to the same column. -/
theorem C10_header_heuristic_quirks :
    isDrugAHeader "drug_b_name".data = true ∧
    drugAColIdx ["id".data, "x".data, "drug_b_name".data, "y".data, "z".data] = 2 ∧
    drugBColIdx ["id".data, "x".data, "drug_b_name".data, "y".data, "z".data] = 2 ∧
    isDrugAHeader "drug_a_b".data = true ∧
    isDrugBHeader "drug_a_b".data = true ∧
    drugAColIdx ["drug_a_b".data] = drugBColIdx ["drug_a_b".data] := by
  decide

end MedSafe
